import Mathlib

/-!
Shallow embedding of the go-pastebin client library (src/pastebin.go).

The HTTP transport is modelled as a list of queued `Response` values: each
HTTP exchange consumes the head of the list (an empty list behaves as a
transport failure, like an unreachable server).  Every function additionally
returns the list of network events it emitted, so that properties such as
"no network request is performed" or "exactly one re-login and one retry"
are statable as facts about the event trace.  Errors are modelled by their
Go error message strings (`errors.New`, `fmt.Errorf`).

The types `CreatePasteRequest`, `Paste`, the xml/json wire records and the
`Visibility` / `Expiration` constants live in repository files that are not
under src/; they are modelled from the spec where noted.  The Go standard
library decoders `xml.Unmarshal` / `json.Unmarshal` are external to the
repository and are abstracted as explicit function parameters of
`ListUserPastes` / `GetRecentPastes`.
-/

namespace Pastebin

/-- Response of one HTTP exchange: whether `client.Do` (resp. `client.Get`)
fails, the numeric status code, the status text (`response.Status`), whether
reading the body (`ioutil.ReadAll`) fails, and the body text. -/
structure Response where
  doFails : Bool
  status : Nat
  statusText : String
  readFails : Bool
  body : String
deriving DecidableEq

/-- Network event emitted by the client: a form-encoded POST with its field
list, or a plain GET. -/
inductive Event where
  | post (url : String) (fields : List (String × String))
  | get (url : String)
deriving DecidableEq

/-- Client struct, src/pastebin.go lines 30-35. -/
structure Client where
  username : String
  password : String
  developerApiKey : String
  sessionKey : String
deriving DecidableEq

/-- Result of a client operation: the Go return value or error message, the
client state afterwards (Go mutates the receiver in place), the remaining
network queue, and the trace of emitted network events. -/
structure ReqOut (α : Type) where
  res : Except String α
  cl : Client
  net : List Response
  events : List Event

/-- Result of the standalone `GetRawPaste`, which has no client receiver. -/
structure RawOut where
  res : Except String String
  net : List Response
  events : List Event

def LoginApiUrl : String := "https://pastebin.com/api/api_login.php"

def PostApiUrl : String := "https://pastebin.com/api/api_post.php"

def RawApiUrl : String := "https://pastebin.com/api/api_raw.php"

def ScrapingApiUrl : String := "https://scrape.pastebin.com/api_scraping.php"

/-- Constant named RawUrlPrefix in the source (renamed here). -/
def RawUrlBase : String := "https://pastebin.com/raw"

/-- Message of the error value ErrNotAuthenticated. -/
def ErrNotAuthenticated : String := "must be authenticated to perform this action"

/-- Body text that triggers automatic re-authentication, line 196. -/
def invalidSessionBody : String := "Bad API request, invalid api_user_key"

/-- Go strings.HasPrefix, byte-for-byte on the character data. -/
def goHasPrefix (s p : String) : Bool :=
  p.data.isPrefixOf s.data

/-- Go strings.TrimPrefix: strip `p` from the front of `s` when present,
otherwise return `s` unchanged. -/
def trimLeading (s p : String) : String :=
  if p.data.isPrefixOf s.data then String.mk (s.data.drop p.data.length) else s

/-- Modelled from the spec: visibility enum value 0 = public. -/
def VisibilityPublic : Nat := 0

/-- Modelled from the spec: visibility enum value 1 = unlisted. -/
def VisibilityUnlisted : Nat := 1

/-- Modelled from the spec: visibility enum value 2 = private. -/
def VisibilityPrivate : Nat := 2

/-- Modelled from the spec: the preset expiration token meaning never
(constant ExpirationNever, declared outside src/). -/
def ExpirationNever : String := "never"

/-- Modelled from the spec: CreatePasteRequest with title, code body,
syntax-highlighting language identifier (source field name: Syntax),
expiration token and numeric visibility level. -/
structure CreatePasteRequest where
  Title : String
  Code : String
  SyntaxId : String
  Expiration : String
  Visibility : Nat
deriving DecidableEq

/-- Modelled from the spec: the common Paste shape assembled from the two
wire representations (key, title, owning username, content size, creation
timestamp, expiration, visibility, syntax, view count). -/
structure Paste where
  key : String
  title : String
  username : String
  size : Nat
  date : Nat
  expiration : Nat
  visibility : Nat
  syntaxId : String
  hits : Nat
deriving DecidableEq

/-- Modelled from the spec: the XML wire record of one paste (type xmlPaste,
declared outside src/); it carries no username. -/
structure XmlPaste where
  key : String
  title : String
  size : Nat
  date : Nat
  expiration : Nat
  visibility : Nat
  syntaxId : String
  hits : Nat
deriving DecidableEq

/-- Modelled from the spec: xmlPaste.ToPaste(username) converts the XML wire
record into the common Paste shape using the caller-supplied username. -/
def XmlPaste.ToPaste (x : XmlPaste) (username : String) : Paste :=
  ⟨x.key, x.title, username, x.size, x.date, x.expiration, x.visibility, x.syntaxId, x.hits⟩

/-- Modelled from the spec: the JSON scrape wire record of one paste (type
jsonPaste, declared outside src/), which carries its own user field. -/
structure JsonPaste where
  key : String
  title : String
  user : String
  size : Nat
  date : Nat
  expiration : Nat
  visibility : Nat
  syntaxId : String
  hits : Nat
deriving DecidableEq

/-- Modelled from the spec: jsonPaste.ToPaste() converts the JSON wire
record into the common Paste shape. -/
def JsonPaste.ToPaste (j : JsonPaste) : Paste :=
  ⟨j.key, j.title, j.user, j.size, j.date, j.expiration, j.visibility, j.syntaxId, j.hits⟩

/-- Body of doPastebinRequest (lines 178-208) when
reAuthenticateOnInvalidSessionKey is false: one POST; transport failure,
non-200 status and body-read failure are errors; a body starting with the
generic error text is an error carrying the body verbatim; otherwise the
body is returned.  The exact-invalid-body re-authentication branch (line
196) is disabled by the flag, so no recursion occurs.  `http.NewRequest`
over the constant method and URL cannot fail and is not modelled. -/
def doRequestNoReauth (c : Client) (apiUrl : String) (fields : List (String × String))
    (net : List Response) : ReqOut String :=
  match net with
  | [] => ⟨.error "transport error", c, [], [.post apiUrl fields]⟩
  | r :: rest =>
    if r.doFails then ⟨.error "transport error", c, rest, [.post apiUrl fields]⟩
    else if r.status ≠ 200 then ⟨.error r.statusText, c, rest, [.post apiUrl fields]⟩
    else if r.readFails then ⟨.error "read error", c, rest, [.post apiUrl fields]⟩
    else if goHasPrefix r.body "Bad API request" then ⟨.error r.body, c, rest, [.post apiUrl fields]⟩
    else ⟨.ok r.body, c, rest, [.post apiUrl fields]⟩

/-- Field list POSTed by login(), lines 53-57. -/
def loginFields (c : Client) : List (String × String) :=
  [("api_user_name", c.username), ("api_user_password", c.password),
   ("api_dev_key", c.developerApiKey)]

/-- login(), lines 52-63: POST credentials to the login endpoint with
re-authentication disabled; on success store the body as the session key. -/
def login (c : Client) (net : List Response) : ReqOut Unit :=
  match doRequestNoReauth c LoginApiUrl (loginFields c) net with
  | ⟨.error e, c1, net1, tr⟩ => ⟨.error e, c1, net1, tr⟩
  | ⟨.ok body, c1, net1, tr⟩ =>
      ⟨.ok (), ⟨c1.username, c1.password, c1.developerApiKey, body⟩, net1, tr⟩

/-- Body of doPastebinRequest when reAuthenticateOnInvalidSessionKey is
true: as in `doRequestNoReauth`, except that a body exactly equal to the
invalid-session text first triggers login() and then one retry of the same
request with the flag false (line 203); a failed re-login is wrapped with
context (line 200). -/
def doRequestReauth (c : Client) (apiUrl : String) (fields : List (String × String))
    (net : List Response) : ReqOut String :=
  match net with
  | [] => ⟨.error "transport error", c, [], [.post apiUrl fields]⟩
  | r :: rest =>
    if r.doFails then ⟨.error "transport error", c, rest, [.post apiUrl fields]⟩
    else if r.status ≠ 200 then ⟨.error r.statusText, c, rest, [.post apiUrl fields]⟩
    else if r.readFails then ⟨.error "read error", c, rest, [.post apiUrl fields]⟩
    else if r.body = invalidSessionBody then
      match login c rest with
      | ⟨.error e, c1, net1, tr⟩ =>
          ⟨.error ("failed to re-authenticate on invalid api_user_key response: " ++ e),
           c1, net1, .post apiUrl fields :: tr⟩
      | ⟨.ok _, c1, net1, tr⟩ =>
          let out := doRequestNoReauth c1 apiUrl fields net1
          ⟨out.res, out.cl, out.net, .post apiUrl fields :: (tr ++ out.events)⟩
    else if goHasPrefix r.body "Bad API request" then ⟨.error r.body, c, rest, [.post apiUrl fields]⟩
    else ⟨.ok r.body, c, rest, [.post apiUrl fields]⟩

/-- doPastebinRequest, lines 178-209. -/
def doPastebinRequest (c : Client) (apiUrl : String) (fields : List (String × String))
    (reAuthenticateOnInvalidSessionKey : Bool) (net : List Response) : ReqOut String :=
  if reAuthenticateOnInvalidSessionKey then doRequestReauth c apiUrl fields net
  else doRequestNoReauth c apiUrl fields net

/-- NewClient, lines 40-50: build the client and, when a username is given,
log it in before returning. -/
def NewClient (username password developerApiKey : String) (net : List Response) : ReqOut Unit :=
  let client : Client := ⟨username, password, developerApiKey, ""⟩
  if username.length > 0 then login client net
  else ⟨.ok (), client, net, []⟩

/-- Field list POSTed by CreatePaste, lines 76-85, given the expiration
value actually sent. -/
def createPasteFields (c : Client) (request : CreatePasteRequest) (expirationField : String) :
    List (String × String) :=
  [("api_option", "paste"), ("api_user_key", c.sessionKey),
   ("api_dev_key", c.developerApiKey), ("api_paste_name", request.Title),
   ("api_paste_code", request.Code), ("api_paste_format", request.SyntaxId),
   ("api_paste_expire_date", expirationField),
   ("api_paste_private", toString request.Visibility)]

/-- CreatePaste, lines 68-90: private visibility demands a session key;
an unset expiration defaults to ExpirationNever; on success the constant
paste-URL front text is stripped from the body to yield the key. -/
def CreatePaste (c : Client) (request : CreatePasteRequest) (net : List Response) :
    ReqOut String :=
  if request.Visibility = VisibilityPrivate ∧ c.sessionKey.length = 0 then
    ⟨.error ErrNotAuthenticated, c, net, []⟩
  else
    let expirationField := if request.Expiration.length > 0 then request.Expiration
      else ExpirationNever
    match doPastebinRequest c PostApiUrl (createPasteFields c request expirationField) true net with
    | ⟨.error e, c1, net1, tr⟩ => ⟨.error e, c1, net1, tr⟩
    | ⟨.ok body, c1, net1, tr⟩ => ⟨.ok (trimLeading body "https://pastebin.com/"), c1, net1, tr⟩

/-- DeletePaste, lines 93-104. -/
def DeletePaste (c : Client) (pasteKey : String) (net : List Response) : ReqOut Unit :=
  if c.sessionKey.length = 0 then ⟨.error ErrNotAuthenticated, c, net, []⟩
  else
    match doPastebinRequest c RawApiUrl
        [("api_option", "delete"), ("api_user_key", c.sessionKey),
         ("api_dev_key", c.developerApiKey), ("api_paste_key", pasteKey)] true net with
    | ⟨.error e, c1, net1, tr⟩ => ⟨.error e, c1, net1, tr⟩
    | ⟨.ok _, c1, net1, tr⟩ => ⟨.ok (), c1, net1, tr⟩

/-- Synthetic root wrapping applied by ListUserPastes, line 121. -/
def xmlWrap (body : String) : String :=
  "<pastes>" ++ body ++ "</pastes>"

/-- ListUserPastes, lines 107-130.  `xmlUnmarshal` abstracts the external
standard-library call xml.Unmarshal into the xmlPastes wrapper struct
(returning its list of paste records, or a decode error). -/
def ListUserPastes (xmlUnmarshal : String → Except String (List XmlPaste))
    (c : Client) (net : List Response) : ReqOut (List Paste) :=
  if c.sessionKey.length = 0 then ⟨.error ErrNotAuthenticated, c, net, []⟩
  else
    match doPastebinRequest c PostApiUrl
        [("api_option", "list"), ("api_user_key", c.sessionKey),
         ("api_dev_key", c.developerApiKey), ("api_results_limit", "100")] true net with
    | ⟨.error e, c1, net1, tr⟩ => ⟨.error e, c1, net1, tr⟩
    | ⟨.ok body, c1, net1, tr⟩ =>
        match xmlUnmarshal (xmlWrap body) with
        | .error e => ⟨.error e, c1, net1, tr⟩
        | .ok xs => ⟨.ok (xs.map (fun x => x.ToPaste c.username)), c1, net1, tr⟩

/-- GetRawUserPaste, lines 135-149. -/
def GetRawUserPaste (c : Client) (pasteKey : String) (net : List Response) : ReqOut String :=
  if c.sessionKey.length = 0 then ⟨.error ErrNotAuthenticated, c, net, []⟩
  else
    match doPastebinRequest c RawApiUrl
        [("api_option", "show_paste"), ("api_user_key", c.sessionKey),
         ("api_dev_key", c.developerApiKey), ("api_paste_key", pasteKey)] true net with
    | ⟨.error e, c1, net1, tr⟩ => ⟨.error e, c1, net1, tr⟩
    | ⟨.ok body, c1, net1, tr⟩ => ⟨.ok body, c1, net1, tr⟩

/-- Synthetic JSON object wrapping applied by GetRecentPastes, line 165. -/
def jsonWrap (body : String) : String :=
  "\x7b\"pastes\":" ++ body ++ "\x7d"

/-- GetRecentPastes, lines 152-174.  `jsonUnmarshal` abstracts the external
standard-library call json.Unmarshal into the jsonPastes wrapper struct.
The parsed records are built (line 170-172) and then discarded: the function
returns the raw body string (line 173). -/
def GetRecentPastes (jsonUnmarshal : String → Except String (List JsonPaste))
    (c : Client) (net : List Response) : ReqOut String :=
  if c.sessionKey.length = 0 then ⟨.error ErrNotAuthenticated, c, net, []⟩
  else
    match doPastebinRequest c ScrapingApiUrl
        [("api_option", "show_paste"), ("api_user_key", c.sessionKey),
         ("api_dev_key", c.developerApiKey)] true net with
    | ⟨.error e, c1, net1, tr⟩ => ⟨.error e, c1, net1, tr⟩
    | ⟨.ok body, c1, net1, tr⟩ =>
        match jsonUnmarshal (jsonWrap body) with
        | .error e => ⟨.error e, c1, net1, tr⟩
        | .ok ps =>
            let _pastes := ps.map (fun j => j.ToPaste)
            ⟨.ok body, c1, net1, tr⟩

/-- GetRawPaste, lines 216-230: a plain GET on the raw URL built from the
key, with no client receiver and hence no session state; the body is read
first, then a non-200 status or an error-prefixed body is rejected with the
body text as the error, and otherwise the body is returned unmodified. -/
def GetRawPaste (pasteKey : String) (net : List Response) : RawOut :=
  let url := RawUrlBase ++ "/" ++ pasteKey
  match net with
  | [] => ⟨.error "transport error", [], [.get url]⟩
  | r :: rest =>
    if r.doFails then ⟨.error "transport error", rest, [.get url]⟩
    else if r.readFails then ⟨.error "read error", rest, [.get url]⟩
    else if r.status ≠ 200 || goHasPrefix r.body "Bad API request" then
      ⟨.error r.body, rest, [.get url]⟩
    else ⟨.ok r.body, rest, [.get url]⟩

/-- Credential fields (everything except the session key) agree. -/
def sameCreds (a b : Client) : Prop :=
  a.username = b.username ∧ a.password = b.password ∧ a.developerApiKey = b.developerApiKey

theorem doRequestNoReauth_cl (c : Client) (u : String) (f : List (String × String))
    (net : List Response) : (doRequestNoReauth c u f net).cl = c := by
  cases net with
  | nil => rfl
  | cons r rest =>
    simp only [doRequestNoReauth]
    repeat' split
    all_goals rfl

theorem doRequestNoReauth_events (c : Client) (u : String) (f : List (String × String))
    (net : List Response) : (doRequestNoReauth c u f net).events = [.post u f] := by
  cases net with
  | nil => rfl
  | cons r rest =>
    simp only [doRequestNoReauth]
    repeat' split
    all_goals rfl

theorem login_creds (c : Client) (net : List Response) : sameCreds (login c net).cl c := by
  have hc := doRequestNoReauth_cl c LoginApiUrl (loginFields c) net
  rcases hout : doRequestNoReauth c LoginApiUrl (loginFields c) net with ⟨res, c1, net1, tr⟩
  rw [hout] at hc
  cases res <;> simp only [login, hout] <;> subst hc <;> exact ⟨rfl, rfl, rfl⟩

theorem login_events (c : Client) (net : List Response) :
    (login c net).events = [.post LoginApiUrl (loginFields c)] := by
  have he := doRequestNoReauth_events c LoginApiUrl (loginFields c) net
  rcases hout : doRequestNoReauth c LoginApiUrl (loginFields c) net with ⟨res, c1, net1, tr⟩
  rw [hout] at he
  cases res <;> simp only [login, hout] <;> exact he

theorem doRequestReauth_creds (c : Client) (u : String) (f : List (String × String))
    (net : List Response) : sameCreds (doRequestReauth c u f net).cl c := by
  cases net with
  | nil => exact ⟨rfl, rfl, rfl⟩
  | cons r rest =>
    simp only [doRequestReauth]
    repeat' split
    all_goals try exact ⟨rfl, rfl, rfl⟩
    all_goals
      rename_i heq
      have hcred := login_creds c rest
      rw [heq] at hcred
      simpa [doRequestNoReauth_cl] using hcred

theorem doRequestReauth_events_head (c : Client) (u : String) (f : List (String × String))
    (net : List Response) : (doRequestReauth c u f net).events.head? = some (.post u f) := by
  cases net with
  | nil => rfl
  | cons r rest =>
    simp only [doRequestReauth]
    repeat' split
    all_goals rfl

theorem doRequestReauth_events_length (c : Client) (u : String) (f : List (String × String))
    (net : List Response) : (doRequestReauth c u f net).events.length ≤ 3 := by
  cases net with
  | nil => simp [doRequestReauth]
  | cons r rest =>
    simp only [doRequestReauth]
    repeat' split
    all_goals try (simp; done)
    all_goals
      rename_i v c1 net1 tr heq
      have hev : tr = [Event.post LoginApiUrl (loginFields c)] := by
        have h2 := login_events c rest
        rw [heq] at h2
        exact h2
      simp [hev, doRequestNoReauth_events]

theorem doRequestReauth_sessionKey (c : Client) (u : String) (f : List (String × String))
    (net : List Response) :
    (doRequestReauth c u f net).cl.sessionKey ≠ c.sessionKey →
      Event.post LoginApiUrl (loginFields c) ∈ (doRequestReauth c u f net).events := by
  cases net with
  | nil => intro h; exact absurd rfl h
  | cons r rest =>
    simp only [doRequestReauth]
    repeat' split
    all_goals intro h
    all_goals try exact absurd rfl h
    all_goals
      rename_i v c1 net1 tr heq
      have hev : tr = [Event.post LoginApiUrl (loginFields c)] := by
        have h2 := login_events c rest
        rw [heq] at h2
        exact h2
      simp [hev, doRequestNoReauth_events]

theorem doPastebinRequest_creds (c : Client) (u : String) (f : List (String × String))
    (b : Bool) (net : List Response) : sameCreds (doPastebinRequest c u f b net).cl c := by
  cases b with
  | false =>
    simp only [doPastebinRequest, Bool.false_eq_true, if_false, doRequestNoReauth_cl]
    exact ⟨rfl, rfl, rfl⟩
  | true => simpa only [doPastebinRequest, if_true] using doRequestReauth_creds c u f net

theorem doPastebinRequest_sessionKey (c : Client) (u : String) (f : List (String × String))
    (b : Bool) (net : List Response) :
    (doPastebinRequest c u f b net).cl.sessionKey ≠ c.sessionKey →
      Event.post LoginApiUrl (loginFields c) ∈ (doPastebinRequest c u f b net).events := by
  cases b with
  | false =>
    simp only [doPastebinRequest, Bool.false_eq_true, if_false, doRequestNoReauth_cl]
    intro h; exact absurd rfl h
  | true => simpa only [doPastebinRequest, if_true] using doRequestReauth_sessionKey c u f net

theorem goHasPrefix_invalid : goHasPrefix invalidSessionBody "Bad API request" = true := by
  decide

/-- Shape of the re-authentication path: a first 200-response whose body is
exactly the invalid-session text, followed by a successful login response
`lb`, makes `doRequestReauth` store `lb` as the session key and replay the
original request through `doRequestNoReauth` on the remaining queue. -/
theorem reauth_path (c : Client) (apiUrl : String) (fields : List (String × String))
    (st1 st2 lb : String) (net : List Response)
    (hlb : goHasPrefix lb "Bad API request" = false) :
    doRequestReauth c apiUrl fields
        (⟨false, 200, st1, false, invalidSessionBody⟩ ::
          ⟨false, 200, st2, false, lb⟩ :: net) =
      ⟨(doRequestNoReauth ⟨c.username, c.password, c.developerApiKey, lb⟩ apiUrl fields net).res,
       (doRequestNoReauth ⟨c.username, c.password, c.developerApiKey, lb⟩ apiUrl fields net).cl,
       (doRequestNoReauth ⟨c.username, c.password, c.developerApiKey, lb⟩ apiUrl fields net).net,
       .post apiUrl fields :: .post LoginApiUrl (loginFields c) ::
         (doRequestNoReauth ⟨c.username, c.password, c.developerApiKey, lb⟩ apiUrl fields net).events⟩ := by
  simp [doRequestReauth, login, doRequestNoReauth, hlb]

/-- Claim C1: with re-authentication allowed, a response body exactly equal
to the invalid-session text triggers exactly one re-login followed by
exactly one retry of the request with the flag false; when the retried
request again returns that body, the call returns it as an error instead of
recursing, and on every input the request trace has at most three events. -/
theorem C1_single_reauth_then_error (c : Client) (apiUrl : String)
    (fields : List (String × String)) (st1 st2 st3 lb : String) (rest : List Response)
    (hlb : goHasPrefix lb "Bad API request" = false) :
    doPastebinRequest c apiUrl fields true
        (⟨false, 200, st1, false, invalidSessionBody⟩ ::
          ⟨false, 200, st2, false, lb⟩ ::
            ⟨false, 200, st3, false, invalidSessionBody⟩ :: rest) =
      ⟨.error invalidSessionBody, ⟨c.username, c.password, c.developerApiKey, lb⟩, rest,
        [.post apiUrl fields, .post LoginApiUrl (loginFields c), .post apiUrl fields]⟩ ∧
    ∀ anyNet : List Response,
      (doPastebinRequest c apiUrl fields true anyNet).events.length ≤ 3 := by
  constructor
  · rw [doPastebinRequest, if_pos rfl,
      reauth_path c apiUrl fields st1 st2 lb (⟨false, 200, st3, false, invalidSessionBody⟩ :: rest) hlb]
    simp [doRequestNoReauth, goHasPrefix_invalid]
  · intro anyNet
    simpa only [doPastebinRequest, if_true] using doRequestReauth_events_length c apiUrl fields anyNet

/-- Claim C2: the retried request after an automatic re-login is built from
the same field list as the original request, so its api_user_key field
still holds the stale session key captured before the re-login, while the
freshly stored session key (the login response body) is not injected. -/
theorem C2_retry_reuses_stale_fields (c : Client) (apiUrl : String)
    (fields : List (String × String)) (st1 st2 lb : String) (r3 : Response)
    (rest : List Response)
    (hlb : goHasPrefix lb "Bad API request" = false)
    (hkey : fields.lookup "api_user_key" = some c.sessionKey)
    (hne : lb ≠ c.sessionKey) :
    (doPastebinRequest c apiUrl fields true
        (⟨false, 200, st1, false, invalidSessionBody⟩ ::
          ⟨false, 200, st2, false, lb⟩ :: r3 :: rest)).events =
      [.post apiUrl fields, .post LoginApiUrl (loginFields c), .post apiUrl fields] ∧
    (doPastebinRequest c apiUrl fields true
        (⟨false, 200, st1, false, invalidSessionBody⟩ ::
          ⟨false, 200, st2, false, lb⟩ :: r3 :: rest)).cl.sessionKey = lb ∧
    fields.lookup "api_user_key" = some c.sessionKey ∧
    fields.lookup "api_user_key" ≠
      some (doPastebinRequest c apiUrl fields true
        (⟨false, 200, st1, false, invalidSessionBody⟩ ::
          ⟨false, 200, st2, false, lb⟩ :: r3 :: rest)).cl.sessionKey := by
  rw [doPastebinRequest, if_pos rfl, reauth_path c apiUrl fields st1 st2 lb (r3 :: rest) hlb]
  refine ⟨?_, ?_, hkey, ?_⟩
  · simp [doRequestNoReauth_events]
  · simp [doRequestNoReauth_cl]
  · simp only [doRequestNoReauth_cl]
    rw [hkey]
    intro h
    exact hne (Option.some.inj h).symm

/-- Claim C3: with an empty session key, DeletePaste, ListUserPastes,
GetRawUserPaste and GetRecentPastes return the not-authenticated error
without emitting any network event, and so does CreatePaste for a request
with private visibility, before any request is built or sent. -/
theorem C3_empty_session_no_network (c : Client) (net : List Response) (pasteKey : String)
    (request : CreatePasteRequest)
    (xmlU : String → Except String (List XmlPaste))
    (jsonU : String → Except String (List JsonPaste))
    (hsk : c.sessionKey = "")
    (hv : request.Visibility = VisibilityPrivate) :
    DeletePaste c pasteKey net = ⟨.error ErrNotAuthenticated, c, net, []⟩ ∧
    ListUserPastes xmlU c net = ⟨.error ErrNotAuthenticated, c, net, []⟩ ∧
    GetRawUserPaste c pasteKey net = ⟨.error ErrNotAuthenticated, c, net, []⟩ ∧
    GetRecentPastes jsonU c net = ⟨.error ErrNotAuthenticated, c, net, []⟩ ∧
    CreatePaste c request net = ⟨.error ErrNotAuthenticated, c, net, []⟩ := by
  have h0 : c.sessionKey.length = 0 := by rw [hsk]; rfl
  refine ⟨?_, ?_, ?_, ?_, ?_⟩ <;>
    simp [DeletePaste, ListUserPastes, GetRawUserPaste, GetRecentPastes, CreatePaste, h0, hv]

/-- Claim C4: on a successful scraping response, GetRecentPastes returns the
raw unwrapped body string rather than the parsed paste records, even though
it parses the wrapped body and surfaces a decode failure as an error. -/
theorem C4_recent_returns_raw (c : Client)
    (jsonU : String → Except String (List JsonPaste)) (st b : String) (rest : List Response)
    (hsk : c.sessionKey.length ≠ 0)
    (hb : goHasPrefix b "Bad API request" = false) :
    (∀ ps : List JsonPaste, jsonU (jsonWrap b) = .ok ps →
      GetRecentPastes jsonU c (⟨false, 200, st, false, b⟩ :: rest) =
        ⟨.ok b, c, rest,
          [.post ScrapingApiUrl
            [("api_option", "show_paste"), ("api_user_key", c.sessionKey),
             ("api_dev_key", c.developerApiKey)]]⟩) ∧
    (∀ e : String, jsonU (jsonWrap b) = .error e →
      GetRecentPastes jsonU c (⟨false, 200, st, false, b⟩ :: rest) =
        ⟨.error e, c, rest,
          [.post ScrapingApiUrl
            [("api_option", "show_paste"), ("api_user_key", c.sessionKey),
             ("api_dev_key", c.developerApiKey)]]⟩) := by
  have hne : b ≠ invalidSessionBody := by
    intro h
    rw [h, goHasPrefix_invalid] at hb
    exact Bool.noConfusion hb
  constructor
  · intro ps hps
    simp [GetRecentPastes, doPastebinRequest, doRequestReauth, hsk, hne, hb, hps]
  · intro e he
    simp [GetRecentPastes, doPastebinRequest, doRequestReauth, hsk, hne, hb, he]

/-- Claim C5: a 200 response whose body starts with the generic error text
(and, when re-authentication is allowed, is not exactly the invalid-session
text) makes doPastebinRequest return an error carrying the full body
verbatim. -/
theorem C5_generic_error_verbatim (c : Client) (u : String)
    (fields : List (String × String)) (st b : String) (rest : List Response)
    (hb : goHasPrefix b "Bad API request" = true) :
    doPastebinRequest c u fields false (⟨false, 200, st, false, b⟩ :: rest) =
      ⟨.error b, c, rest, [.post u fields]⟩ ∧
    (b ≠ invalidSessionBody →
      doPastebinRequest c u fields true (⟨false, 200, st, false, b⟩ :: rest) =
        ⟨.error b, c, rest, [.post u fields]⟩) := by
  constructor
  · simp [doPastebinRequest, doRequestNoReauth, hb]
  · intro hne
    simp [doPastebinRequest, doRequestReauth, hb, hne]

/-- Claim C6: on an authenticated client, ListUserPastes wraps the response
fragment in a synthetic pastes root, parses it, and returns exactly one
Paste per parsed record, each carrying the client username as owner. -/
theorem C6_list_pastes_mapped (c : Client)
    (xmlU : String → Except String (List XmlPaste)) (st b : String) (rest : List Response)
    (xs : List XmlPaste)
    (hsk : c.sessionKey.length ≠ 0)
    (hb : goHasPrefix b "Bad API request" = false)
    (hx : xmlU (xmlWrap b) = .ok xs) :
    ListUserPastes xmlU c (⟨false, 200, st, false, b⟩ :: rest) =
      ⟨.ok (xs.map fun x => x.ToPaste c.username), c, rest,
        [.post PostApiUrl
          [("api_option", "list"), ("api_user_key", c.sessionKey),
           ("api_dev_key", c.developerApiKey), ("api_results_limit", "100")]]⟩ ∧
    (xs.map fun x => x.ToPaste c.username).length = xs.length ∧
    ∀ p ∈ xs.map (fun x => x.ToPaste c.username), p.username = c.username := by
  have hne : b ≠ invalidSessionBody := by
    intro h
    rw [h, goHasPrefix_invalid] at hb
    exact Bool.noConfusion hb
  refine ⟨?_, List.length_map _ _, ?_⟩
  · simp [ListUserPastes, doPastebinRequest, doRequestReauth, hsk, hne, hb, hx]
  · intro p hp
    rcases List.mem_map.mp hp with ⟨x, _, hx2⟩
    rw [← hx2]
    rfl

/-- Claim C7: a successful CreatePaste returns the response body with the
constant paste-URL front text stripped; in particular the body
https&#58;//pastebin.com/abc123 yields the key abc123. -/
theorem C7_create_strips_url (c : Client) (request : CreatePasteRequest)
    (net : List Response)
    (hauth : ¬(request.Visibility = VisibilityPrivate ∧ c.sessionKey.length = 0)) :
    (∀ body : String,
      (doPastebinRequest c PostApiUrl
          (createPasteFields c request
            (if request.Expiration.length > 0 then request.Expiration else ExpirationNever))
          true net).res = .ok body →
        (CreatePaste c request net).res = .ok (trimLeading body "https://pastebin.com/")) ∧
    trimLeading "https://pastebin.com/abc123" "https://pastebin.com/" = "abc123" := by
  refine ⟨?_, by decide⟩
  intro body hbody
  rcases hout : doPastebinRequest c PostApiUrl
      (createPasteFields c request
        (if request.Expiration.length > 0 then request.Expiration else ExpirationNever))
      true net with ⟨res, c1, net1, tr⟩
  rw [hout] at hbody
  simp only [CreatePaste, if_neg hauth, hout]
  cases res with
  | error e => exact absurd hbody (by simp)
  | ok v =>
    have hv : v = body := by simpa using hbody
    rw [hv]

/-- Claim C8: the request CreatePaste emits carries the ExpirationNever
token in its api_paste_expire_date field when the Expiration field of the
request is empty, and the given Expiration value unchanged otherwise. -/
theorem C8_expiration_default (c : Client) (request : CreatePasteRequest)
    (net : List Response)
    (hauth : ¬(request.Visibility = VisibilityPrivate ∧ c.sessionKey.length = 0)) :
    (request.Expiration.length = 0 →
      (CreatePaste c request net).events.head? =
        some (.post PostApiUrl (createPasteFields c request ExpirationNever))) ∧
    (request.Expiration.length > 0 →
      (CreatePaste c request net).events.head? =
        some (.post PostApiUrl (createPasteFields c request request.Expiration))) := by
  have hmain : ∀ ef : String,
      (if request.Expiration.length > 0 then request.Expiration else ExpirationNever) = ef →
      (CreatePaste c request net).events.head? =
        some (.post PostApiUrl (createPasteFields c request ef)) := by
    intro ef hef
    have hh := doRequestReauth_events_head c PostApiUrl (createPasteFields c request ef) net
    rcases hout : doPastebinRequest c PostApiUrl (createPasteFields c request ef) true net
      with ⟨res, c1, net1, tr⟩
    have hh2 : tr.head? = some (.post PostApiUrl (createPasteFields c request ef)) := by
      rw [doPastebinRequest, if_pos rfl] at hout
      rw [hout] at hh
      exact hh
    simp only [CreatePaste, if_neg hauth, hef, hout]
    cases res <;> exact hh2
  constructor
  · intro hzero
    exact hmain ExpirationNever (by simp [hzero])
  · intro hpos
    exact hmain request.Expiration (by simp [hpos])

/-- Claim C9: GetRawPaste performs one unauthenticated GET on the raw URL
built from the key (it takes no client and touches no session state),
returns an error on a non-200 status or an error-prefixed body, and
otherwise returns the body text unmodified. -/
theorem C9_get_raw_paste (pasteKey st b : String) (stat : Nat) (rest : List Response) :
    (∀ anyNet : List Response,
      (GetRawPaste pasteKey anyNet).events = [.get (RawUrlBase ++ "/" ++ pasteKey)]) ∧
    (stat ≠ 200 ∨ goHasPrefix b "Bad API request" = true →
      (GetRawPaste pasteKey (⟨false, stat, st, false, b⟩ :: rest)).res = .error b) ∧
    (stat = 200 → goHasPrefix b "Bad API request" = false →
      (GetRawPaste pasteKey (⟨false, stat, st, false, b⟩ :: rest)).res = .ok b) := by
  refine ⟨?_, ?_, ?_⟩
  · intro anyNet
    cases anyNet with
    | nil => rfl
    | cons r rest2 =>
      simp only [GetRawPaste]
      repeat' split
      all_goals rfl
  · intro h
    rcases h with h | h
    · simp [GetRawPaste, h]
    · simp [GetRawPaste, h]
  · intro h1 h2
    simp [GetRawPaste, h1, h2]

/-- Claim C10: no operation modifies the username, password or developer
API key of a Client; the session key is unchanged by any request made with
re-authentication disabled, and whenever any doPastebinRequest call changes
it, a login request is part of the trace (the session key is written only
by login, reached directly, through NewClient with a username, or through
the automatic re-authentication branch). -/
theorem C10_credentials_immutable :
    (∀ (c : Client) (u : String) (f : List (String × String)) (net : List Response),
      (doRequestNoReauth c u f net).cl = c) ∧
    (∀ (c : Client) (net : List Response), sameCreds (login c net).cl c) ∧
    (∀ (c : Client) (u : String) (f : List (String × String)) (b : Bool)
        (net : List Response), sameCreds (doPastebinRequest c u f b net).cl c) ∧
    (∀ (c : Client) (u : String) (f : List (String × String)) (b : Bool)
        (net : List Response),
      (doPastebinRequest c u f b net).cl.sessionKey ≠ c.sessionKey →
        Event.post LoginApiUrl (loginFields c) ∈ (doPastebinRequest c u f b net).events) ∧
    (∀ (c : Client) (request : CreatePasteRequest) (net : List Response),
      sameCreds (CreatePaste c request net).cl c) ∧
    (∀ (c : Client) (pk : String) (net : List Response),
      sameCreds (DeletePaste c pk net).cl c) ∧
    (∀ (xmlU : String → Except String (List XmlPaste)) (c : Client) (net : List Response),
      sameCreds (ListUserPastes xmlU c net).cl c) ∧
    (∀ (c : Client) (pk : String) (net : List Response),
      sameCreds (GetRawUserPaste c pk net).cl c) ∧
    (∀ (jsonU : String → Except String (List JsonPaste)) (c : Client) (net : List Response),
      sameCreds (GetRecentPastes jsonU c net).cl c) ∧
    (∀ (u p k : String) (net : List Response),
      (NewClient u p k net).cl.username = u ∧ (NewClient u p k net).cl.password = p ∧
        (NewClient u p k net).cl.developerApiKey = k) := by
  refine ⟨doRequestNoReauth_cl, login_creds, doPastebinRequest_creds, doPastebinRequest_sessionKey,
    ?_, ?_, ?_, ?_, ?_, ?_⟩
  · intro c request net
    by_cases h : request.Visibility = VisibilityPrivate ∧ c.sessionKey.length = 0
    · simp [CreatePaste, h, sameCreds]
    · have hcred := doPastebinRequest_creds c PostApiUrl
        (createPasteFields c request
          (if request.Expiration.length > 0 then request.Expiration else ExpirationNever)) true net
      rcases hout : doPastebinRequest c PostApiUrl
          (createPasteFields c request
            (if request.Expiration.length > 0 then request.Expiration else ExpirationNever)) true net
        with ⟨res, c1, net1, tr⟩
      rw [hout] at hcred
      simp only [CreatePaste, if_neg h, hout]
      cases res <;> exact hcred
  · intro c pk net
    by_cases h : c.sessionKey.length = 0
    · simp [DeletePaste, h, sameCreds]
    · have hcred := doPastebinRequest_creds c RawApiUrl
        [("api_option", "delete"), ("api_user_key", c.sessionKey),
         ("api_dev_key", c.developerApiKey), ("api_paste_key", pk)] true net
      rcases hout : doPastebinRequest c RawApiUrl
          [("api_option", "delete"), ("api_user_key", c.sessionKey),
           ("api_dev_key", c.developerApiKey), ("api_paste_key", pk)] true net
        with ⟨res, c1, net1, tr⟩
      rw [hout] at hcred
      simp only [DeletePaste, if_neg h, hout]
      cases res <;> exact hcred
  · intro xmlU c net
    by_cases h : c.sessionKey.length = 0
    · simp [ListUserPastes, h, sameCreds]
    · have hcred := doPastebinRequest_creds c PostApiUrl
        [("api_option", "list"), ("api_user_key", c.sessionKey),
         ("api_dev_key", c.developerApiKey), ("api_results_limit", "100")] true net
      rcases hout : doPastebinRequest c PostApiUrl
          [("api_option", "list"), ("api_user_key", c.sessionKey),
           ("api_dev_key", c.developerApiKey), ("api_results_limit", "100")] true net
        with ⟨res, c1, net1, tr⟩
      rw [hout] at hcred
      simp only [ListUserPastes, if_neg h, hout]
      cases res with
      | error e => exact hcred
      | ok body =>
        rcases hx : xmlU (xmlWrap body) with e | xs <;> simp only [hx] <;> exact hcred
  · intro c pk net
    by_cases h : c.sessionKey.length = 0
    · simp [GetRawUserPaste, h, sameCreds]
    · have hcred := doPastebinRequest_creds c RawApiUrl
        [("api_option", "show_paste"), ("api_user_key", c.sessionKey),
         ("api_dev_key", c.developerApiKey), ("api_paste_key", pk)] true net
      rcases hout : doPastebinRequest c RawApiUrl
          [("api_option", "show_paste"), ("api_user_key", c.sessionKey),
           ("api_dev_key", c.developerApiKey), ("api_paste_key", pk)] true net
        with ⟨res, c1, net1, tr⟩
      rw [hout] at hcred
      simp only [GetRawUserPaste, if_neg h, hout]
      cases res <;> exact hcred
  · intro jsonU c net
    by_cases h : c.sessionKey.length = 0
    · simp [GetRecentPastes, h, sameCreds]
    · have hcred := doPastebinRequest_creds c ScrapingApiUrl
        [("api_option", "show_paste"), ("api_user_key", c.sessionKey),
         ("api_dev_key", c.developerApiKey)] true net
      rcases hout : doPastebinRequest c ScrapingApiUrl
          [("api_option", "show_paste"), ("api_user_key", c.sessionKey),
           ("api_dev_key", c.developerApiKey)] true net
        with ⟨res, c1, net1, tr⟩
      rw [hout] at hcred
      simp only [GetRecentPastes, if_neg h, hout]
      cases res with
      | error e => exact hcred
      | ok body =>
        rcases hx : jsonU (jsonWrap body) with e | ps <;> simp only [hx] <;> exact hcred
  · intro u p k net
    by_cases h : u.length > 0
    · have hcred := login_creds ⟨u, p, k, ""⟩ net
      simp only [NewClient, if_pos h]
      exact ⟨hcred.1, hcred.2.1, hcred.2.2⟩
    · simp [NewClient, h]

/-- Concrete run of the C1 theorem: invalid-session body, successful
re-login, invalid-session body again. -/
theorem C1_single_reauth_then_error_witness :
    goHasPrefix "newkey" "Bad API request" = false ∧
    (doPastebinRequest ⟨"u", "p", "k", "old"⟩ PostApiUrl [("api_user_key", "old")] true
        [⟨false, 200, "s1", false, invalidSessionBody⟩,
         ⟨false, 200, "s2", false, "newkey"⟩,
         ⟨false, 200, "s3", false, invalidSessionBody⟩] =
      ⟨.error invalidSessionBody, ⟨"u", "p", "k", "newkey"⟩, [],
        [.post PostApiUrl [("api_user_key", "old")],
         .post LoginApiUrl (loginFields ⟨"u", "p", "k", "old"⟩),
         .post PostApiUrl [("api_user_key", "old")]]⟩ ∧
      ∀ anyNet : List Response,
        (doPastebinRequest ⟨"u", "p", "k", "old"⟩ PostApiUrl [("api_user_key", "old")] true
          anyNet).events.length ≤ 3) :=
  ⟨by decide,
   C1_single_reauth_then_error ⟨"u", "p", "k", "old"⟩ PostApiUrl [("api_user_key", "old")]
     "s1" "s2" "s3" "newkey" [] (by decide)⟩

/-- Concrete run of the C2 theorem: the retried request still references
the stale session key, not the freshly stored one. -/
theorem C2_retry_reuses_stale_fields_witness :
    [("api_user_key", "old")].lookup "api_user_key" ≠
      some (doPastebinRequest ⟨"u", "p", "k", "old"⟩ PostApiUrl [("api_user_key", "old")] true
        [⟨false, 200, "s1", false, invalidSessionBody⟩,
         ⟨false, 200, "s2", false, "newkey"⟩,
         ⟨false, 200, "s3", false, "pastekey"⟩]).cl.sessionKey :=
  (C2_retry_reuses_stale_fields ⟨"u", "p", "k", "old"⟩ PostApiUrl [("api_user_key", "old")]
    "s1" "s2" "newkey" ⟨false, 200, "s3", false, "pastekey"⟩ []
    (by decide) (by decide) (by decide)).2.2.2

/-- Concrete run of the C3 theorem on a client with an empty session key. -/
theorem C3_empty_session_no_network_witness :
    DeletePaste ⟨"u", "p", "k", ""⟩ "abc" [] =
      ⟨.error ErrNotAuthenticated, ⟨"u", "p", "k", ""⟩, [], []⟩ ∧
    CreatePaste ⟨"u", "p", "k", ""⟩ ⟨"t", "code", "go", "", VisibilityPrivate⟩ [] =
      ⟨.error ErrNotAuthenticated, ⟨"u", "p", "k", ""⟩, [], []⟩ :=
  ⟨(C3_empty_session_no_network ⟨"u", "p", "k", ""⟩ [] "abc"
      ⟨"t", "code", "go", "", VisibilityPrivate⟩
      (fun _ => Except.ok ([] : List XmlPaste)) (fun _ => Except.ok ([] : List JsonPaste))
      rfl rfl).1,
   (C3_empty_session_no_network ⟨"u", "p", "k", ""⟩ [] "abc"
      ⟨"t", "code", "go", "", VisibilityPrivate⟩
      (fun _ => Except.ok ([] : List XmlPaste)) (fun _ => Except.ok ([] : List JsonPaste))
      rfl rfl).2.2.2.2⟩

/-- Concrete run of the C4 theorem: a successful parse still yields the raw
body string. -/
theorem C4_recent_returns_raw_witness :
    GetRecentPastes (fun _ => Except.ok ([] : List JsonPaste)) ⟨"u", "p", "k", "sess"⟩
        [⟨false, 200, "s", false, "[]"⟩] =
      ⟨.ok "[]", ⟨"u", "p", "k", "sess"⟩, [],
        [.post ScrapingApiUrl
          [("api_option", "show_paste"), ("api_user_key", "sess"), ("api_dev_key", "k")]]⟩ :=
  (C4_recent_returns_raw ⟨"u", "p", "k", "sess"⟩ (fun _ => Except.ok ([] : List JsonPaste))
    "s" "[]" [] (by decide) (by decide)).1 [] rfl

/-- Concrete run of the C5 theorem on a generic error body, under both
values of the re-authentication flag. -/
theorem C5_generic_error_verbatim_witness :
    doPastebinRequest ⟨"u", "p", "k", "s"⟩ PostApiUrl [] false
        [⟨false, 200, "st", false, "Bad API request, whatever"⟩] =
      ⟨.error "Bad API request, whatever", ⟨"u", "p", "k", "s"⟩, [], [.post PostApiUrl []]⟩ ∧
    doPastebinRequest ⟨"u", "p", "k", "s"⟩ PostApiUrl [] true
        [⟨false, 200, "st", false, "Bad API request, whatever"⟩] =
      ⟨.error "Bad API request, whatever", ⟨"u", "p", "k", "s"⟩, [], [.post PostApiUrl []]⟩ :=
  ⟨(C5_generic_error_verbatim ⟨"u", "p", "k", "s"⟩ PostApiUrl [] "st"
      "Bad API request, whatever" [] (by decide)).1,
   (C5_generic_error_verbatim ⟨"u", "p", "k", "s"⟩ PostApiUrl [] "st"
      "Bad API request, whatever" [] (by decide)).2 (by decide)⟩

/-- Concrete run of the C6 theorem on a two-record fragment. -/
theorem C6_list_pastes_mapped_witness :
    ListUserPastes
        (fun _ => Except.ok ([⟨"k1", "t1", 1, 2, 3, 0, "go", 4⟩,
          ⟨"k2", "t2", 5, 6, 7, 1, "c", 8⟩] : List XmlPaste))
        ⟨"alice", "p", "k", "sess"⟩ [⟨false, 200, "s", false, "<paste/><paste/>"⟩] =
      ⟨.ok (([⟨"k1", "t1", 1, 2, 3, 0, "go", 4⟩,
          ⟨"k2", "t2", 5, 6, 7, 1, "c", 8⟩] : List XmlPaste).map fun x => x.ToPaste "alice"),
       ⟨"alice", "p", "k", "sess"⟩, [],
       [.post PostApiUrl
         [("api_option", "list"), ("api_user_key", "sess"),
          ("api_dev_key", "k"), ("api_results_limit", "100")]]⟩ :=
  (C6_list_pastes_mapped ⟨"alice", "p", "k", "sess"⟩
    (fun _ => Except.ok ([⟨"k1", "t1", 1, 2, 3, 0, "go", 4⟩,
      ⟨"k2", "t2", 5, 6, 7, 1, "c", 8⟩] : List XmlPaste))
    "s" "<paste/><paste/>" []
    [⟨"k1", "t1", 1, 2, 3, 0, "go", 4⟩, ⟨"k2", "t2", 5, 6, 7, 1, "c", 8⟩]
    (by decide) (by decide) rfl).1

/-- Concrete run of the C7 theorem on the spec example body. -/
theorem C7_create_strips_url_witness :
    (CreatePaste ⟨"u", "p", "k", "sess"⟩ ⟨"t", "code", "go", "10M", VisibilityPublic⟩
        [⟨false, 200, "s", false, "https://pastebin.com/abc123"⟩]).res = .ok "abc123" := by
  have hC := C7_create_strips_url ⟨"u", "p", "k", "sess"⟩
    ⟨"t", "code", "go", "10M", VisibilityPublic⟩
    [⟨false, 200, "s", false, "https://pastebin.com/abc123"⟩] (by decide)
  have h1 := hC.1 "https://pastebin.com/abc123" rfl
  rw [hC.2] at h1
  exact h1

/-- Concrete run of the C8 theorem with and without an expiration value. -/
theorem C8_expiration_default_witness :
    (CreatePaste ⟨"u", "p", "k", "sess"⟩ ⟨"t", "code", "go", "", VisibilityPublic⟩ []).events.head? =
      some (.post PostApiUrl
        (createPasteFields ⟨"u", "p", "k", "sess"⟩ ⟨"t", "code", "go", "", VisibilityPublic⟩
          ExpirationNever)) ∧
    (CreatePaste ⟨"u", "p", "k", "sess"⟩ ⟨"t", "code", "go", "10M", VisibilityPublic⟩ []).events.head? =
      some (.post PostApiUrl
        (createPasteFields ⟨"u", "p", "k", "sess"⟩ ⟨"t", "code", "go", "10M", VisibilityPublic⟩
          "10M")) :=
  ⟨(C8_expiration_default ⟨"u", "p", "k", "sess"⟩ ⟨"t", "code", "go", "", VisibilityPublic⟩ []
      (by decide)).1 (by decide),
   (C8_expiration_default ⟨"u", "p", "k", "sess"⟩ ⟨"t", "code", "go", "10M", VisibilityPublic⟩ []
      (by decide)).2 (by decide)⟩

/-- Concrete runs of the C9 theorem: error status, happy path, and the GET
URL built from the key. -/
theorem C9_get_raw_paste_witness :
    (GetRawPaste "abc" [⟨false, 404, "404", false, "err"⟩]).res = .error "err" ∧
    (GetRawPaste "abc" [⟨false, 200, "200", false, "hello"⟩]).res = .ok "hello" ∧
    (GetRawPaste "abc" []).events = [.get (RawUrlBase ++ "/" ++ "abc")] :=
  ⟨(C9_get_raw_paste "abc" "404" "err" 404 []).2.1 (Or.inl (by decide)),
   (C9_get_raw_paste "abc" "200" "hello" 200 []).2.2 rfl (by decide),
   (C9_get_raw_paste "abc" "x" "y" 0 []).1 []⟩

/-- Concrete run of the C10 theorem: a session-key change implies a login
request in the trace. -/
theorem C10_credentials_immutable_witness :
    Event.post LoginApiUrl (loginFields ⟨"u", "p", "k", "old"⟩) ∈
      (doPastebinRequest ⟨"u", "p", "k", "old"⟩ PostApiUrl [] true
        [⟨false, 200, "s1", false, invalidSessionBody⟩,
         ⟨false, 200, "s2", false, "newkey"⟩,
         ⟨false, 200, "s3", false, "body"⟩]).events :=
  C10_credentials_immutable.2.2.2.1 ⟨"u", "p", "k", "old"⟩ PostApiUrl [] true
    [⟨false, 200, "s1", false, invalidSessionBody⟩,
     ⟨false, 200, "s2", false, "newkey"⟩,
     ⟨false, 200, "s3", false, "body"⟩] (by decide)

end Pastebin
